import Mathlib

/-!
Verification of `scripts/fetch_scholar_metrics.py`.

The script is embedded shallowly: each Python function becomes a Lean
function over an explicit environment describing the mocked HTTP
responses and the success of the two file writes.  The metrics record
(a Python dict) is embedded as an association list of string keys and
values, preserving insertion order and dict-update semantics.
-/

namespace ScholarMetrics

/-- Configuration constant `GOOGLE_SCHOLAR_ID` from the script. -/
def GOOGLE_SCHOLAR_ID : String := "H8fc2JgAAAAJ"

/-- Configuration constant `AUTHOR_NAME` from the script. -/
def AUTHOR_NAME : String := "Evangelos-Marios Nikolados"

/-- A value stored in the metrics dict: the script only ever stores
non-negative integers or strings. -/
inductive Value where
  | nat (n : Nat)
  | str (s : String)
  deriving DecidableEq, Repr

/-- The metrics record: a Python dict embedded as an insertion-ordered
association list with distinct keys. -/
abbrev Record := List (String × Value)

/-- Python `d[k] = v` / a single entry of `d.update(...)`: overwrite the
value in place if the key exists, otherwise append the pair at the end. -/
def setKey : Record → String → Value → Record
  | [], k, v => [(k, v)]
  | (k', v') :: rest, k, v =>
      if k' = k then (k, v) :: rest else (k', v') :: setKey rest k v

/-- Python `base.update(upd)`: fold every pair of `upd` into `base`. -/
def updateRecord (base upd : Record) : Record :=
  upd.foldl (fun acc kv => setKey acc kv.1 kv.2) base

/-- Outcome of one HTTP call: `ok` is a 2xx response whose JSON body
parsed into the expected shape; `error` covers network errors,
non-success statuses (`raise_for_status`) and malformed bodies, all of
which raise and are caught by the `except` clause of the fetcher. -/
inductive ApiResult (α : Type) where
  | ok (a : α)
  | error
  deriving DecidableEq

/-- One candidate from the author-search response: `name` and
`authorId` fields, either of which may be absent. -/
structure AuthorCandidate where
  name : Option String
  authorId : Option String
  deriving DecidableEq, Repr

/-- One entry of the `papers` list of the author-detail response;
`citationCount` may be absent. -/
structure Paper where
  citationCount : Option Nat
  deriving DecidableEq, Repr

/-- The author-detail response body; every aggregate field may be
absent (`data.get` with a default is used for each). -/
structure AuthorDetail where
  name : Option String
  hIndex : Option Nat
  citationCount : Option Nat
  publicationCount : Option Nat
  papers : Option (List Paper)
  deriving DecidableEq, Repr

/-- `pat` is an initial segment of `text` (character lists). -/
def charsHasLead : List Char → List Char → Bool
  | [], _ => true
  | _ :: _, [] => false
  | p :: ps, t :: ts => p == t && charsHasLead ps ts

/-- `pat` occurs as a contiguous run inside `text` (character lists). -/
def charsHasSub (pat : List Char) : List Char → Bool
  | [] => pat.isEmpty
  | t :: ts => charsHasLead pat (t :: ts) || charsHasSub pat ts

/-- Python's `pat in text` substring test on strings. -/
def strContainsSub (text pat : String) : Bool :=
  charsHasSub pat.data text.data

/-- Result of scanning the author-search candidates, mirroring the
`for author in authors` loop:
* `found id` — a candidate whose name contains "Nikolados" was reached
  first and carried a non-empty `authorId` (the loop `break`s);
* `keyError` — the first matching candidate has no `authorId` key, so
  `author["authorId"]` raises `KeyError` (caught by the outer `except`);
* `noMatch` — no candidate matched, or the first matching candidate's
  id was the empty string (falsy, so `if not author_id` fires): the
  function prints a warning and returns `None` without raising. -/
inductive SelectOutcome where
  | found (id : String)
  | keyError
  | noMatch
  deriving DecidableEq, Repr

/-- Does a candidate's returned name contain the target surname?
(`"Nikolados" in author.get("name", "")`). -/
def matchesSurname (a : AuthorCandidate) : Bool :=
  strContainsSub (a.name.getD "") "Nikolados"

/-- The candidate-scanning loop of `fetch_semantic_scholar_metrics`. -/
def selectAuthor : List AuthorCandidate → SelectOutcome
  | [] => .noMatch
  | a :: rest =>
      if matchesSurname a then
        match a.authorId with
        | none => .keyError
        | some id => if id = "" then .noMatch else .found id
      else selectAuthor rest

/-- The `i10_count` loop: count papers whose `citationCount`
(default 0) is at least 10. -/
def i10Count (papers : List Paper) : Nat :=
  papers.foldl (fun acc p => if p.citationCount.getD 0 ≥ 10 then acc + 1 else acc) 0

/-- Environment of the primary fetcher: the mocked search response and
the mocked detail response for each author id. -/
structure PrimaryEnv where
  searchResult : ApiResult (List AuthorCandidate)
  detailResult : String → ApiResult AuthorDetail

/-- The `metrics` dict built by `fetch_semantic_scholar_metrics` from a
successful detail response, in insertion order. -/
def primaryRecord (data : AuthorDetail) (today : String) : Record :=
  [("h_index", .nat (data.hIndex.getD 0)),
   ("i10_index", .nat (i10Count (data.papers.getD []))),
   ("total_citations", .nat (data.citationCount.getD 0)),
   ("publications_count", .nat (data.publicationCount.getD 0)),
   ("last_updated", .str today),
   ("scholar_id", .str GOOGLE_SCHOLAR_ID),
   ("source", .str "Semantic Scholar"),
   ("author_name", .str (data.name.getD AUTHOR_NAME))]

/-- `fetch_semantic_scholar_metrics`: returns the metrics dict on
success and `None` on any failure (search miss or caught exception). -/
def fetch_semantic_scholar_metrics (env : PrimaryEnv) (today : String) :
    Option Record :=
  match env.searchResult with
  | .error => none
  | .ok authors =>
    match selectAuthor authors with
    | .noMatch => none
    | .keyError => none
    | .found id =>
      match env.detailResult id with
      | .error => none
      | .ok data => some (primaryRecord data today)

/-- An outgoing HTTP GET request: target URL plus the query parameters
actually passed to `requests.get`. -/
structure HttpRequest where
  url : String
  queryParams : List (String × String)
  deriving DecidableEq, Repr

/-- The local `params` dict built inside `fetch_crossref_metrics`. -/
def crossref_params : List (String × String) :=
  [("query.author", AUTHOR_NAME), ("rows", "100")]

/-- The works-search request actually issued by
`fetch_crossref_metrics`: `requests.get(url)` is called without the
`params` argument, so no query parameters are sent. -/
def crossrefRequest : HttpRequest :=
  { url := "https://api.crossref.org/works", queryParams := [] }

/-- One item of the CrossRef works response; the
`is-referenced-by-count` field may be absent. -/
structure CrossRefItem where
  is_referenced_by_count : Option Nat
  deriving DecidableEq, Repr

/-- Environment of the secondary fetcher: the mocked works response. -/
structure SecondaryEnv where
  worksResult : ApiResult (List CrossRefItem)

/-- The citation-summing loop of `fetch_crossref_metrics`. -/
def crossrefCitationSum (items : List CrossRefItem) : Nat :=
  items.foldl (fun acc it => acc + it.is_referenced_by_count.getD 0) 0

/-- The supplementary dict built by `fetch_crossref_metrics` from a
successful works response. -/
def crossrefRecord (items : List CrossRefItem) : Record :=
  [("total_citations_crossref", .nat (crossrefCitationSum items)),
   ("publications_crossref", .nat items.length)]

/-- `fetch_crossref_metrics`: returns the two supplementary fields on
success and `None` on any caught exception. -/
def fetch_crossref_metrics (env : SecondaryEnv) : Option Record :=
  match env.worksResult with
  | .error => none
  | .ok items => some (crossrefRecord items)

/-- `get_fallback_metrics`: the static manual record, stamped with the
run date. -/
def get_fallback_metrics (today : String) : Record :=
  [("h_index", .nat 6),
   ("i10_index", .nat 3),
   ("total_citations", .nat 124),
   ("publications_count", .nat 10),
   ("last_updated", .str today),
   ("scholar_id", .str GOOGLE_SCHOLAR_ID),
   ("source", .str "Manual (fallback)"),
   ("author_name", .str AUTHOR_NAME)]

/-- The whole environment of one run of the script: mocked responses
for the three HTTP calls, the run date, and whether each of the two
file writes succeeds. -/
structure RunEnv where
  primary : PrimaryEnv
  secondary : SecondaryEnv
  today : String
  jsonWriteOk : Bool
  jsWriteOk : Bool

/-- The observable outcome of `main`: the final record handed to both
writers, the file writes attempted in order (with their success), and
the process exit code. -/
structure RunResult where
  record : Record
  writes : List (String × Bool)
  exitCode : Nat

/-- `main`: primary fetch, secondary fetch, merge or fallback, then the
two writes and the exit code. -/
def runMain (env : RunEnv) : RunResult :=
  let metrics := fetch_semantic_scholar_metrics env.primary env.today
  let crossref_data := fetch_crossref_metrics env.secondary
  let metrics :=
    match metrics, crossref_data with
    | some m, some c => some (updateRecord m c)
    | m, _ => m
  let metrics :=
    match metrics with
    | some m => m
    | none => get_fallback_metrics env.today
  let json_success := env.jsonWriteOk
  let js_success := env.jsWriteOk
  { record := metrics,
    writes := [("scholar_metrics.json", json_success),
               ("scholar_metrics.js", js_success)],
    exitCode := if json_success && js_success then 0 else 1 }

/-- The run-date-independent part of a record: every entry except
`last_updated`. -/
def stripDate (r : Record) : Record :=
  r.filter (fun kv => kv.1 ≠ "last_updated")

/-- The five primary fields of the persisted record, with the values
derived from a successful detail response. -/
abbrev hasPrimaryFields (r : Record) (data : AuthorDetail) (today : String) : Prop :=
  r.lookup "h_index" = some (.nat (data.hIndex.getD 0)) ∧
  r.lookup "i10_index" = some (.nat (i10Count (data.papers.getD []))) ∧
  r.lookup "total_citations" = some (.nat (data.citationCount.getD 0)) ∧
  r.lookup "publications_count" = some (.nat (data.publicationCount.getD 0)) ∧
  r.lookup "last_updated" = some (.str today)

/-! ### Concrete test fixtures -/

/-- A run in which every HTTP call fails. -/
def envAllError : RunEnv :=
  { primary := { searchResult := .error, detailResult := fun _ => .error },
    secondary := { worksResult := .error },
    today := "2025-06-30", jsonWriteOk := true, jsWriteOk := true }

/-- A run where the author search only returns a non-matching
candidate while the works search succeeds. -/
def envPrimaryFailSecondaryOk : RunEnv :=
  { primary := { searchResult := .ok [⟨some "Somebody Else", some "z9"⟩],
                 detailResult := fun _ => .error },
    secondary := { worksResult := .ok [⟨some 7⟩, ⟨some 2⟩] },
    today := "2025-06-30", jsonWriteOk := true, jsWriteOk := true }

/-- The detail response of the worked example in the spec:
`{hIndex: 6, citationCount: 124, publicationCount: 10,
papers: [{citationCount: 12}, {citationCount: 3}]}`. -/
def exampleDetail : AuthorDetail :=
  { name := none, hIndex := some 6, citationCount := some 124,
    publicationCount := some 10, papers := some [⟨some 12⟩, ⟨some 3⟩] }

/-- A detail response in which every field is absent. -/
def emptyDetail : AuthorDetail :=
  { name := none, hIndex := none, citationCount := none,
    publicationCount := none, papers := none }

/-- A run where the primary fetch succeeds with the worked example and
the secondary fetch fails. -/
def exampleEnv : RunEnv :=
  { primary := { searchResult := .ok [⟨some AUTHOR_NAME, some "A1"⟩],
                 detailResult := fun _ => .ok exampleDetail },
    secondary := { worksResult := .error },
    today := "2025-06-30", jsonWriteOk := true, jsWriteOk := true }

/-- A run where both fetches succeed (the works list has one item with
a missing counter). -/
def envBothOk : RunEnv :=
  { primary := { searchResult := .ok [⟨some AUTHOR_NAME, some "A1"⟩],
                 detailResult := fun _ => .ok exampleDetail },
    secondary := { worksResult := .ok [⟨some 5⟩, ⟨none⟩, ⟨some 7⟩] },
    today := "2025-06-30", jsonWriteOk := true, jsWriteOk := true }

/-- A run where the detail response is entirely empty. -/
def envEmptyDetail : RunEnv :=
  { primary := { searchResult := .ok [⟨some "N. Nikolados", some "A1"⟩],
                 detailResult := fun _ => .ok emptyDetail },
    secondary := { worksResult := .error },
    today := "2025-06-30", jsonWriteOk := true, jsWriteOk := true }

/-- A search response with several candidates: the second is the first
whose name contains the surname. -/
def multiCandidates : List AuthorCandidate :=
  [⟨some "A. Smith", some "A0"⟩,
   ⟨some "A. Nikolados", some "A1"⟩,
   ⟨some "B. Nikolados", some "A2"⟩]

/-- A run over `multiCandidates` whose detail responses differ by
author id, to observe which id the detail call uses. -/
def envMulti : RunEnv :=
  { primary := { searchResult := .ok multiCandidates,
                 detailResult := fun id =>
                   if id = "A1" then .ok exampleDetail else .error },
    secondary := { worksResult := .error },
    today := "2025-06-30", jsonWriteOk := true, jsWriteOk := true }

/-! ### Helper lemmas -/

theorem i10Count_foldl_aux (papers : List Paper) (acc : Nat) :
    papers.foldl (fun acc p => if p.citationCount.getD 0 ≥ 10 then acc + 1 else acc) acc =
      acc + papers.countP (fun p => p.citationCount.getD 0 ≥ 10) := by
  induction papers generalizing acc with
  | nil => simp
  | cons p ps ih =>
    simp only [List.foldl_cons, List.countP_cons, ih]
    by_cases h : p.citationCount.getD 0 ≥ 10 <;> simp [h] <;> omega

/-- The `i10_count` loop counts exactly the papers with at least 10
citations (a missing citation count counts as 0). -/
theorem i10Count_eq_countP (papers : List Paper) :
    i10Count papers = papers.countP (fun p => p.citationCount.getD 0 ≥ 10) := by
  simpa using i10Count_foldl_aux papers 0

theorem crossrefSum_foldl_aux (items : List CrossRefItem) (acc : Nat) :
    items.foldl (fun acc it => acc + it.is_referenced_by_count.getD 0) acc =
      acc + (items.map (fun it => it.is_referenced_by_count.getD 0)).sum := by
  induction items generalizing acc with
  | nil => simp
  | cons it its ih =>
    simp only [List.foldl_cons, List.map_cons, List.sum_cons, ih]
    omega

/-- The citation-summing loop computes the sum of the
`is-referenced-by-count` values (a missing value counts as 0). -/
theorem crossrefCitationSum_eq_sum (items : List CrossRefItem) :
    crossrefCitationSum items =
      (items.map (fun it => it.is_referenced_by_count.getD 0)).sum := by
  simpa [crossrefCitationSum] using crossrefSum_foldl_aux items 0

/-- The final record of a run, by the outcome of the two fetches. -/
theorem runMain_record_cases (env : RunEnv) :
    (runMain env).record =
      match fetch_semantic_scholar_metrics env.primary env.today,
            fetch_crossref_metrics env.secondary with
      | some m, some c => updateRecord m c
      | some m, none => m
      | none, _ => get_fallback_metrics env.today := by
  unfold runMain
  cases fetch_semantic_scholar_metrics env.primary env.today <;>
    cases fetch_crossref_metrics env.secondary <;> try rfl

/-- The primary fetch either fails outright (for every run date) or
succeeds with a `primaryRecord` built from one fixed detail response. -/
theorem fetch_shape (p : PrimaryEnv) :
    (∀ today, fetch_semantic_scholar_metrics p today = none) ∨
    ∃ data, ∀ today,
      fetch_semantic_scholar_metrics p today = some (primaryRecord data today) := by
  obtain ⟨sr, dr⟩ := p
  cases sr with
  | error => exact Or.inl fun _ => rfl
  | ok authors =>
    cases h : selectAuthor authors with
    | noMatch =>
      exact Or.inl fun t => by simp [fetch_semantic_scholar_metrics, h]
    | keyError =>
      exact Or.inl fun t => by simp [fetch_semantic_scholar_metrics, h]
    | found id =>
      cases hd : dr id with
      | error =>
        exact Or.inl fun t => by simp [fetch_semantic_scholar_metrics, h, hd]
      | ok data =>
        exact Or.inr ⟨data, fun t => by
          simp [fetch_semantic_scholar_metrics, h, hd]⟩

/-- The secondary fetch either fails or returns the `crossrefRecord`
of some item list. -/
theorem crossref_shape (s : SecondaryEnv) :
    fetch_crossref_metrics s = none ∨
    ∃ items, s.worksResult = .ok items ∧
      fetch_crossref_metrics s = some (crossrefRecord items) := by
  obtain ⟨wr⟩ := s
  cases wr with
  | error => exact Or.inl rfl
  | ok items => exact Or.inr ⟨items, rfl, rfl⟩

/-- Successful plumbing of the primary fetch: a successful search, a
candidate selection and a successful detail call give the primary
record. -/
theorem fetch_primary_some (p : PrimaryEnv) (today : String)
    (authors : List AuthorCandidate) (id : String) (data : AuthorDetail)
    (h1 : p.searchResult = .ok authors)
    (h2 : selectAuthor authors = .found id)
    (h3 : p.detailResult id = .ok data) :
    fetch_semantic_scholar_metrics p today = some (primaryRecord data today) := by
  simp [fetch_semantic_scholar_metrics, h1, h2, h3]

/-- When the primary fetch fails the final record is the fallback
record, whatever the secondary fetch did. -/
theorem record_eq_fallback_of_fetch_none (env : RunEnv)
    (h : fetch_semantic_scholar_metrics env.primary env.today = none) :
    (runMain env).record = get_fallback_metrics env.today := by
  rw [runMain_record_cases env, h]

/-- The scanning loop selects the first candidate (in response order)
whose name contains the surname. -/
theorem selectAuthor_eq_find (authors : List AuthorCandidate) :
    selectAuthor authors =
      match authors.find? matchesSurname with
      | none => .noMatch
      | some a =>
        match a.authorId with
        | none => .keyError
        | some id => if id = "" then .noMatch else .found id := by
  induction authors with
  | nil => rfl
  | cons a rest ih =>
    by_cases h : matchesSurname a
    · simp [selectAuthor, List.find?, h]
    · simp [selectAuthor, List.find?, h, ih]

/-- When both fetches succeed the final record merges the secondary
fields into the primary record. -/
theorem record_of_both_some (env : RunEnv) (m c : Record)
    (h : fetch_semantic_scholar_metrics env.primary env.today = some m)
    (hc : fetch_crossref_metrics env.secondary = some c) :
    (runMain env).record = updateRecord m c := by
  rw [runMain_record_cases env, h, hc]

/-- When only the primary fetch succeeds the final record is the
primary record unchanged. -/
theorem record_of_primary_only (env : RunEnv) (m : Record)
    (h : fetch_semantic_scholar_metrics env.primary env.today = some m)
    (hc : fetch_crossref_metrics env.secondary = none) :
    (runMain env).record = m := by
  rw [runMain_record_cases env, h, hc]

/-- The i10 entry of the primary record is the count of papers with at
least 10 citations. -/
theorem lookup_primaryRecord_i10 (data : AuthorDetail) (t : String) :
    (primaryRecord data t).lookup "i10_index" =
      some (.nat ((data.papers.getD []).countP
        (fun p => p.citationCount.getD 0 ≥ 10))) := by
  rw [← i10Count_eq_countP]; rfl

/-- The i10 entry survives the merge of the secondary fields. -/
theorem lookup_merged_i10 (data : AuthorDetail) (t : String)
    (items : List CrossRefItem) :
    (updateRecord (primaryRecord data t) (crossrefRecord items)).lookup "i10_index" =
      some (.nat ((data.papers.getD []).countP
        (fun p => p.citationCount.getD 0 ≥ 10))) := by
  rw [← i10Count_eq_countP]; rfl

/-- The supplementary citation entry of the merged record is the sum
of the `is-referenced-by-count` values. -/
theorem lookup_merged_crossref_sum (data : AuthorDetail) (t : String)
    (items : List CrossRefItem) :
    (updateRecord (primaryRecord data t) (crossrefRecord items)).lookup
        "total_citations_crossref" =
      some (.nat ((items.map (fun it => it.is_referenced_by_count.getD 0)).sum)) := by
  rw [← crossrefCitationSum_eq_sum]; rfl

/-! ### Claims -/

/-- C1: whenever the primary fetch fails (failed search, no matching
candidate, request error, non-success status and malformed body all
produce `none`), the persisted record is exactly the fallback record:
h-index 6, i10-index 3, 124 total citations, 10 publications, source
"Manual (fallback)", the configured scholar id and author name, and
the run date as the last-updated field. -/
theorem C1_fallback_on_primary_failure (env : RunEnv)
    (h : fetch_semantic_scholar_metrics env.primary env.today = none) :
    (runMain env).record =
      [("h_index", .nat 6),
       ("i10_index", .nat 3),
       ("total_citations", .nat 124),
       ("publications_count", .nat 10),
       ("last_updated", .str env.today),
       ("scholar_id", .str GOOGLE_SCHOLAR_ID),
       ("source", .str "Manual (fallback)"),
       ("author_name", .str AUTHOR_NAME)] :=
  record_eq_fallback_of_fetch_none env h

/-- Witness for C1: in the all-errors run the primary fetch fails and
the persisted record is the fallback record stamped with the run
date. -/
theorem C1_fallback_on_primary_failure_witness :
    fetch_semantic_scholar_metrics envAllError.primary envAllError.today = none ∧
    (runMain envAllError).record =
      [("h_index", .nat 6),
       ("i10_index", .nat 3),
       ("total_citations", .nat 124),
       ("publications_count", .nat 10),
       ("last_updated", .str "2025-06-30"),
       ("scholar_id", .str GOOGLE_SCHOLAR_ID),
       ("source", .str "Manual (fallback)"),
       ("author_name", .str AUTHOR_NAME)] :=
  ⟨rfl, C1_fallback_on_primary_failure envAllError rfl⟩

/-- C2 (code bug): the works-search request is issued by
`requests.get(url)` without the `params` argument, so it carries no
query parameters at all, even though the `params` dict holding the
author query and the row limit of 100 is built two lines earlier and
never used. -/
theorem C2_works_request_missing_params :
    crossrefRequest.url = "https://api.crossref.org/works" ∧
    crossrefRequest.queryParams = [] ∧
    crossref_params = [("query.author", AUTHOR_NAME), ("rows", "100")] ∧
    crossrefRequest.queryParams ≠ crossref_params := by
  refine ⟨rfl, rfl, rfl, ?_⟩
  decide

/-- C4: the exit code is 0 exactly when both writes succeed and 1
otherwise, and both file writes are attempted in order regardless of
each other's outcome. -/
theorem C4_exit_code_iff_both_writes (env : RunEnv) :
    ((runMain env).exitCode = 0 ↔ env.jsonWriteOk = true ∧ env.jsWriteOk = true) ∧
    ((runMain env).exitCode = 0 ∨ (runMain env).exitCode = 1) ∧
    (runMain env).writes =
      [("scholar_metrics.json", env.jsonWriteOk),
       ("scholar_metrics.js", env.jsWriteOk)] := by
  obtain ⟨p, s, t, w1, w2⟩ := env
  cases w1 <;> cases w2 <;> simp [runMain]

/-- C6: if the primary fetch fails, the persisted record is the
unmodified fallback record and contains neither of the
secondary-derived fields, whatever the secondary fetch returned. -/
theorem C6_no_secondary_fields_in_fallback (env : RunEnv)
    (h : fetch_semantic_scholar_metrics env.primary env.today = none) :
    (runMain env).record = get_fallback_metrics env.today ∧
    (runMain env).record.lookup "total_citations_crossref" = none ∧
    (runMain env).record.lookup "publications_crossref" = none := by
  have hr := record_eq_fallback_of_fetch_none env h
  rw [hr]
  exact ⟨rfl, rfl, rfl⟩

/-- Witness for C6: a run where the search returns no matching name
while the works search succeeds; the secondary data still does not
reach the persisted record. -/
theorem C6_no_secondary_fields_in_fallback_witness :
    fetch_semantic_scholar_metrics envPrimaryFailSecondaryOk.primary
        envPrimaryFailSecondaryOk.today = none ∧
    ((runMain envPrimaryFailSecondaryOk).record =
        get_fallback_metrics "2025-06-30" ∧
      (runMain envPrimaryFailSecondaryOk).record.lookup
        "total_citations_crossref" = none ∧
      (runMain envPrimaryFailSecondaryOk).record.lookup
        "publications_crossref" = none) :=
  ⟨rfl, C6_no_secondary_fields_in_fallback envPrimaryFailSecondaryOk rfl⟩

/-- C8: on every run the record handed to the two writers has all five
primary fields populated (four numeric fields plus the run date); it
is never a partial record. -/
theorem C8_record_always_complete (env : RunEnv) :
    ∃ h i c p : Nat,
      (runMain env).record.lookup "h_index" = some (.nat h) ∧
      (runMain env).record.lookup "i10_index" = some (.nat i) ∧
      (runMain env).record.lookup "total_citations" = some (.nat c) ∧
      (runMain env).record.lookup "publications_count" = some (.nat p) ∧
      (runMain env).record.lookup "last_updated" = some (.str env.today) := by
  rcases fetch_shape env.primary with hN | ⟨data, hS⟩
  · have hr := record_eq_fallback_of_fetch_none env (hN env.today)
    rw [hr]
    exact ⟨6, 3, 124, 10, rfl, rfl, rfl, rfl, rfl⟩
  · rcases crossref_shape env.secondary with hC | ⟨items, _, hC⟩
    · have hr := record_of_primary_only env _ (hS env.today) hC
      rw [hr]
      exact ⟨_, _, _, _, rfl, rfl, rfl, rfl, rfl⟩
    · have hr := record_of_both_some env _ _ (hS env.today) hC
      rw [hr]
      exact ⟨_, _, _, _, rfl, rfl, rfl, rfl, rfl⟩

/-- C9: two runs over identical API responses produce records that
agree on every field except the last-updated date, and both output
files are (re)written on every run. -/
theorem C9_deterministic_up_to_date (p : PrimaryEnv) (s : SecondaryEnv)
    (d1 d2 : String) (a1 b1 a2 b2 : Bool) :
    stripDate (runMain ⟨p, s, d1, a1, b1⟩).record =
      stripDate (runMain ⟨p, s, d2, a2, b2⟩).record ∧
    (runMain ⟨p, s, d1, a1, b1⟩).writes.map Prod.fst =
      ["scholar_metrics.json", "scholar_metrics.js"] := by
  refine ⟨?_, rfl⟩
  rcases fetch_shape p with hN | ⟨data, hS⟩
  · rw [record_eq_fallback_of_fetch_none _ (hN d1),
        record_eq_fallback_of_fetch_none _ (hN d2)]
    rfl
  · rcases crossref_shape s with hC | ⟨items, _, hC⟩
    · rw [record_of_primary_only _ _ (hS d1) hC,
          record_of_primary_only _ _ (hS d2) hC]
      rfl
    · rw [record_of_both_some _ _ _ (hS d1) hC,
          record_of_both_some _ _ _ (hS d2) hC]
      rfl

/-- C3: for every successful primary fetch the persisted i10-index is
the number of returned papers whose citation count is at least 10
(missing counts treated as 0), and citations and publication count
come from the detail response; a paper with exactly 10 citations
counts and one with 9 does not; and the worked example persists
i10-index 1, 124 citations, 10 publications. -/
theorem C3_i10_index_count (env : RunEnv) (authors : List AuthorCandidate)
    (id : String) (data : AuthorDetail)
    (h1 : env.primary.searchResult = .ok authors)
    (h2 : selectAuthor authors = .found id)
    (h3 : env.primary.detailResult id = .ok data) :
    ((runMain env).record.lookup "i10_index" =
        some (.nat ((data.papers.getD []).countP
          (fun p => p.citationCount.getD 0 ≥ 10))) ∧
      (runMain env).record.lookup "total_citations" =
        some (.nat (data.citationCount.getD 0)) ∧
      (runMain env).record.lookup "publications_count" =
        some (.nat (data.publicationCount.getD 0))) ∧
    (i10Count [⟨some 10⟩] = 1 ∧ i10Count [⟨some 9⟩] = 0 ∧
      i10Count [⟨none⟩] = 0) ∧
    ((runMain exampleEnv).record.lookup "i10_index" = some (.nat 1) ∧
      (runMain exampleEnv).record.lookup "total_citations" = some (.nat 124) ∧
      (runMain exampleEnv).record.lookup "publications_count" =
        some (.nat 10)) := by
  have hm := fetch_primary_some env.primary env.today authors id data h1 h2 h3
  refine ⟨?_, ⟨rfl, rfl, rfl⟩, by decide, by decide, by decide⟩
  rcases crossref_shape env.secondary with hC | ⟨items, _, hC⟩
  · rw [record_of_primary_only env _ hm hC]
    exact ⟨lookup_primaryRecord_i10 data env.today, rfl, rfl⟩
  · rw [record_of_both_some env _ _ hm hC]
    exact ⟨lookup_merged_i10 data env.today items, rfl, rfl⟩

/-- Witness for C3: the worked-example run persists i10-index 1, 124
citations and 10 publications. -/
theorem C3_i10_index_count_witness :
    selectAuthor [(⟨some AUTHOR_NAME, some "A1"⟩ : AuthorCandidate)] =
      .found "A1" ∧
    ((runMain exampleEnv).record.lookup "i10_index" = some (.nat 1) ∧
      (runMain exampleEnv).record.lookup "total_citations" = some (.nat 124) ∧
      (runMain exampleEnv).record.lookup "publications_count" =
        some (.nat 10)) := by
  have h := C3_i10_index_count exampleEnv [⟨some AUTHOR_NAME, some "A1"⟩]
    "A1" exampleDetail rfl (by decide) rfl
  exact ⟨by decide, h.2.2⟩

/-- C5: when the primary fetch succeeds, a successful secondary fetch
adds exactly the two supplementary fields (citation sum over the
returned items with missing counters as 0, and the item count), while
a failed secondary fetch leaves the record with the five primary
fields and no supplementary fields; the run completes and attempts
both writes either way. -/
theorem C5_secondary_merge_or_omit (env : RunEnv)
    (authors : List AuthorCandidate) (id : String) (data : AuthorDetail)
    (h1 : env.primary.searchResult = .ok authors)
    (h2 : selectAuthor authors = .found id)
    (h3 : env.primary.detailResult id = .ok data) :
    ((runMain env).record =
       match env.secondary.worksResult with
       | .ok items =>
           updateRecord (primaryRecord data env.today) (crossrefRecord items)
       | .error => primaryRecord data env.today) ∧
    ((runMain env).record.lookup "total_citations_crossref" =
       match env.secondary.worksResult with
       | .ok items =>
           some (.nat ((items.map (fun it => it.is_referenced_by_count.getD 0)).sum))
       | .error => none) ∧
    ((runMain env).record.lookup "publications_crossref" =
       match env.secondary.worksResult with
       | .ok items => some (.nat items.length)
       | .error => none) ∧
    hasPrimaryFields (runMain env).record data env.today ∧
    (runMain env).writes.map Prod.fst =
      ["scholar_metrics.json", "scholar_metrics.js"] := by
  have hm := fetch_primary_some env.primary env.today authors id data h1 h2 h3
  cases hw : env.secondary.worksResult with
  | error =>
    have hC : fetch_crossref_metrics env.secondary = none := by
      simp [fetch_crossref_metrics, hw]
    rw [record_of_primary_only env _ hm hC]
    exact ⟨rfl, rfl, rfl, ⟨rfl, rfl, rfl, rfl, rfl⟩, rfl⟩
  | ok items =>
    have hC : fetch_crossref_metrics env.secondary =
        some (crossrefRecord items) := by
      simp [fetch_crossref_metrics, hw]
    rw [record_of_both_some env _ _ hm hC]
    exact ⟨rfl, lookup_merged_crossref_sum data env.today items, rfl,
      ⟨rfl, rfl, rfl, rfl, rfl⟩, rfl⟩

/-- Witness for C5: in the run where both fetches succeed the merged
record carries the supplementary sum 12 over items with counters
5, missing, 7 and the item count 3, next to the primary h-index 6. -/
theorem C5_secondary_merge_or_omit_witness :
    selectAuthor [(⟨some AUTHOR_NAME, some "A1"⟩ : AuthorCandidate)] =
      .found "A1" ∧
    ((runMain envBothOk).record.lookup "total_citations_crossref" =
        some (.nat 12) ∧
      (runMain envBothOk).record.lookup "publications_crossref" =
        some (.nat 3) ∧
      (runMain envBothOk).record.lookup "h_index" = some (.nat 6)) := by
  have h := C5_secondary_merge_or_omit envBothOk
    [⟨some AUTHOR_NAME, some "A1"⟩] "A1" exampleDetail rfl (by decide) rfl
  exact ⟨by decide, h.2.1, h.2.2.1, h.2.2.2.1.1⟩

/-- C7: the fetcher scans the candidates in response order and selects
the first whose returned name contains the surname, with no further
disambiguation; the detail request is keyed by that candidate's id;
and if no candidate's name contains the surname the fetch returns the
no-data outcome and the orchestrator persists the fallback record. -/
theorem C7_first_matching_candidate (env : RunEnv)
    (authors : List AuthorCandidate)
    (h : env.primary.searchResult = .ok authors) :
    (selectAuthor authors =
       match authors.find? matchesSurname with
       | none => .noMatch
       | some a =>
         match a.authorId with
         | none => .keyError
         | some id => if id = "" then .noMatch else .found id) ∧
    (fetch_semantic_scholar_metrics env.primary env.today =
       match authors.find? matchesSurname with
       | none => none
       | some a =>
         match a.authorId with
         | none => none
         | some id =>
           if id = "" then none
           else
             match env.primary.detailResult id with
             | .error => none
             | .ok data => some (primaryRecord data env.today)) ∧
    (authors.find? matchesSurname = none →
       fetch_semantic_scholar_metrics env.primary env.today = none ∧
       (runMain env).record = get_fallback_metrics env.today) := by
  have hsel := selectAuthor_eq_find authors
  have hfetch : fetch_semantic_scholar_metrics env.primary env.today =
      match authors.find? matchesSurname with
      | none => none
      | some a =>
        match a.authorId with
        | none => none
        | some id =>
          if id = "" then none
          else
            match env.primary.detailResult id with
            | .error => none
            | .ok data => some (primaryRecord data env.today) := by
    cases hf : authors.find? matchesSurname with
    | none =>
      have hs : selectAuthor authors = .noMatch := by rw [hsel, hf]
      simp [fetch_semantic_scholar_metrics, h, hs]
    | some a =>
      cases ha : a.authorId with
      | none =>
        have hs : selectAuthor authors = .keyError := by
          rw [hsel, hf]; simp [ha]
        simp [fetch_semantic_scholar_metrics, h, hs, ha]
      | some id =>
        by_cases hid : id = ""
        · have hs : selectAuthor authors = .noMatch := by
            rw [hsel, hf]; simp [ha, hid]
          simp [fetch_semantic_scholar_metrics, h, hs, ha, hid]
        · have hs : selectAuthor authors = .found id := by
            rw [hsel, hf]; simp [ha, hid]
          cases hd : env.primary.detailResult id with
          | error =>
            simp [fetch_semantic_scholar_metrics, h, hs, ha, hid, hd]
          | ok data =>
            simp [fetch_semantic_scholar_metrics, h, hs, ha, hid, hd]
  refine ⟨hsel, hfetch, fun hf => ?_⟩
  have hnone : fetch_semantic_scholar_metrics env.primary env.today = none := by
    rw [hfetch, hf]
  exact ⟨hnone, record_eq_fallback_of_fetch_none env hnone⟩

/-- Witness for C7: among three candidates the second is the first
whose name contains the surname; its id keys the detail call, whose
response is persisted. -/
theorem C7_first_matching_candidate_witness :
    envMulti.primary.searchResult = .ok multiCandidates ∧
    (selectAuthor multiCandidates = .found "A1" ∧
      fetch_semantic_scholar_metrics envMulti.primary envMulti.today =
        some (primaryRecord exampleDetail "2025-06-30")) := by
  have h := C7_first_matching_candidate envMulti multiCandidates rfl
  exact ⟨rfl, by decide, h.2.1⟩

/-- C10: aggregate fields missing from a successful detail response do
not fail the fetch or trigger the fallback: the record is still built
with source "Semantic Scholar", the missing numeric fields default to
0, and a missing returned name defaults to the configured author
name. -/
theorem C10_missing_detail_fields_default (env : RunEnv)
    (authors : List AuthorCandidate) (id : String) (data : AuthorDetail)
    (h1 : env.primary.searchResult = .ok authors)
    (h2 : selectAuthor authors = .found id)
    (h3 : env.primary.detailResult id = .ok data) :
    fetch_semantic_scholar_metrics env.primary env.today =
      some (primaryRecord data env.today) ∧
    (runMain env).record.lookup "source" = some (.str "Semantic Scholar") ∧
    (data.hIndex = none →
      (runMain env).record.lookup "h_index" = some (.nat 0)) ∧
    (data.citationCount = none →
      (runMain env).record.lookup "total_citations" = some (.nat 0)) ∧
    (data.publicationCount = none →
      (runMain env).record.lookup "publications_count" = some (.nat 0)) ∧
    (data.name = none →
      (runMain env).record.lookup "author_name" = some (.str AUTHOR_NAME)) := by
  have hm := fetch_primary_some env.primary env.today authors id data h1 h2 h3
  rcases crossref_shape env.secondary with hC | ⟨items, _, hC⟩
  · rw [record_of_primary_only env _ hm hC]
    exact ⟨hm, rfl,
      fun hh => by
        show some (Value.nat (data.hIndex.getD 0)) = some (Value.nat 0)
        rw [hh]; rfl,
      fun hh => by
        show some (Value.nat (data.citationCount.getD 0)) = some (Value.nat 0)
        rw [hh]; rfl,
      fun hh => by
        show some (Value.nat (data.publicationCount.getD 0)) = some (Value.nat 0)
        rw [hh]; rfl,
      fun hh => by
        show some (Value.str (data.name.getD AUTHOR_NAME)) =
          some (Value.str AUTHOR_NAME)
        rw [hh]; rfl⟩
  · rw [record_of_both_some env _ _ hm hC]
    exact ⟨hm, rfl,
      fun hh => by
        show some (Value.nat (data.hIndex.getD 0)) = some (Value.nat 0)
        rw [hh]; rfl,
      fun hh => by
        show some (Value.nat (data.citationCount.getD 0)) = some (Value.nat 0)
        rw [hh]; rfl,
      fun hh => by
        show some (Value.nat (data.publicationCount.getD 0)) = some (Value.nat 0)
        rw [hh]; rfl,
      fun hh => by
        show some (Value.str (data.name.getD AUTHOR_NAME)) =
          some (Value.str AUTHOR_NAME)
        rw [hh]; rfl⟩

/-- Witness for C10: a run whose detail response has every field
absent still persists a "Semantic Scholar" record with zeros and the
configured author name. -/
theorem C10_missing_detail_fields_default_witness :
    selectAuthor [(⟨some "N. Nikolados", some "A1"⟩ : AuthorCandidate)] =
      .found "A1" ∧
    ((runMain envEmptyDetail).record.lookup "source" =
        some (.str "Semantic Scholar") ∧
      (runMain envEmptyDetail).record.lookup "h_index" = some (.nat 0) ∧
      (runMain envEmptyDetail).record.lookup "total_citations" =
        some (.nat 0) ∧
      (runMain envEmptyDetail).record.lookup "publications_count" =
        some (.nat 0) ∧
      (runMain envEmptyDetail).record.lookup "author_name" =
        some (.str AUTHOR_NAME)) := by
  have h := C10_missing_detail_fields_default envEmptyDetail
    [⟨some "N. Nikolados", some "A1"⟩] "A1" emptyDetail rfl (by decide) rfl
  exact ⟨by decide, h.2.1, h.2.2.1 rfl, h.2.2.2.1 rfl, h.2.2.2.2.1 rfl,
    h.2.2.2.2.2 rfl⟩

end ScholarMetrics
